import Mathlib

/-!
Shallow embedding of `container/utils.py` from the ansible-container
repository, together with theorems settling the frozen claims about it.

Conventions of the embedding:
* Filesystem paths are component lists (`Path := List String`); the Python
  `os.path.join(a, b)` becomes `a ++ [b]`.
* External collaborators (the jinja template engine, `importlib`, the
  container-runtime client, the real filesystem) are passed in as explicit
  parameters, so each function under study is a pure Lean function.
* Python exceptions become `Except` values whose `error` component carries
  the exception message string.
-/

set_option autoImplicit false

namespace AnsibleContainer

/-- Filesystem paths, modelled as lists of path components. -/
abbrev Path := List String

/-! ### Character-list string primitives

Models of the Python string primitives the code uses, written over
`String.data` so that every definition evaluates by kernel reduction. -/

/-- Python `s.startswith(pre)`. -/
def strStartsWith (s pre : String) : Bool :=
  pre.data.isPrefixOf s.data

/-- Python `s.endswith(post)`. -/
def strEndsWith (s post : String) : Bool :=
  post.data.isSuffixOf s.data

/-- Python `s.lower()` (ASCII case folding). -/
def strToLower (s : String) : String :=
  ⟨s.data.map Char.toLower⟩

/-- Splitting on a nonempty separator, scanning left to right; `acc` holds
the reversed characters of the current field and `fuel` bounds the
recursion (the input length suffices, each step consuming a character). -/
def splitOnChars (sep : List Char) : Nat → List Char → List Char → List (List Char)
  | _, acc, [] => [acc.reverse]
  | 0, acc, l => [acc.reverse ++ l]
  | fuel + 1, acc, c :: rest =>
    if sep.isPrefixOf (c :: rest) ∧ sep ≠ [] then
      acc.reverse :: splitOnChars sep fuel [] ((c :: rest).drop sep.length)
    else
      splitOnChars sep fuel (c :: acc) rest

/-- Python `s.split(sep)` for a nonempty separator. -/
def strSplitOn (s sep : String) : List String :=
  (splitOnChars sep.data s.data.length [] s.data).map (fun l => ⟨l⟩)

/-! ### create_path (utils.py lines 47-53)

`os.makedirs` can terminate in three ways: success, an `OSError` carrying
an errno (this covers every filesystem failure Python reports, including
errno 17 `EEXIST` and errno 13 `EACCES`), or some other exception.  The
`try/except` ladder of `create_path` is a function of that outcome. -/

/-- Outcome of the `os.makedirs(path)` call inside `create_path`. -/
inductive MakedirsOutcome where
  | success : MakedirsOutcome
  | osError (errno : Nat) (msg : String) : MakedirsOutcome
  | otherError (msg : String) : MakedirsOutcome
deriving DecidableEq

/-- Embedding of `create_path` (utils.py lines 47-53): `except OSError: pass`
swallows every `OSError`; `except Exception as exc:` wraps anything else in
`AnsibleContainerException`, whose message is modelled as the error string. -/
def create_path (path : String) (outcome : MakedirsOutcome) : Except String Unit :=
  match outcome with
  | MakedirsOutcome.success => Except.ok ()
  | MakedirsOutcome.osError _ _ => Except.ok ()
  | MakedirsOutcome.otherError msg =>
      Except.error ("Error: failed to create " ++ path ++ " - " ++ msg)

/-- Rendering of a `Path` for use inside exception messages. -/
def pathToString (p : Path) : String := String.intercalate "/" p

/-- Filesystem-level model of `os.makedirs` on a directory set: if the path
already exists it fails with `OSError` errno 17 (File exists); if the
`denied` oracle rejects it, it fails with `OSError` errno 13 (Permission
denied); otherwise it creates the directory.  Every failure the filesystem
can report is an `OSError`, matching Python. -/
def makedirs_fs (denied : Path → Bool) (dirs : List Path) (path : Path) :
    MakedirsOutcome × List Path :=
  if dirs.contains path then (MakedirsOutcome.osError 17 "File exists", dirs)
  else if denied path then (MakedirsOutcome.osError 13 "Permission denied", dirs)
  else (MakedirsOutcome.success, path :: dirs)

/-- `create_path` run against the filesystem-level `os.makedirs` model:
returns the call result together with the updated directory set. -/
def create_path_on (denied : Path → Bool) (dirs : List Path) (path : Path) :
    Except String Unit × List Path :=
  let r := makedirs_fs denied dirs path
  (create_path (pathToString path) r.1, r.2)

/-! ### assert_initialized (utils.py lines 79-87) -/

/-- Read-only filesystem oracles used by `assert_initialized`: the
`os.path.exists`, `os.path.isdir` and `os.path.isfile` predicates. -/
structure FSQuery where
  pexists : Path → Bool
  isdir : Path → Bool
  isfile : Path → Bool

/-- Embedding of `assert_initialized` (utils.py lines 79-87): raises
`AnsibleContainerNotInitializedException` (modelled as `Except.error ()`)
when the marker directory or either marker file is missing or of the wrong
type; otherwise returns normally.  The function only consults the read-only
oracles, so by construction it performs no filesystem modification. -/
def assert_initialized (fs : FSQuery) (base_path : Path) : Except Unit Unit :=
  let ansible_dir := base_path ++ ["ansible"]
  let container_file := ansible_dir ++ ["container.yml"]
  let ansible_file := ansible_dir ++ ["main.yml"]
  if !fs.pexists ansible_dir || !fs.isdir ansible_dir ||
      !fs.pexists container_file || !fs.isfile container_file ||
      !fs.pexists ansible_file || !fs.isfile ansible_file then
    Except.error ()
  else
    Except.ok ()

/-! ### get_latest_image_for (utils.py lines 89-103) -/

/-- One image descriptor returned by the container-runtime client: the
`RepoTags` list and the `Id` field. -/
structure ImageDescriptor where
  repoTags : List String
  id : String
deriving DecidableEq

/-- The predicate of the list comprehension in `get_latest_image_for`:
whether the formatted project-host latest tag occurs in `RepoTags`. -/
def matchesLatest (project_name host : String) (d : ImageDescriptor) : Bool :=
  d.repoTags.contains (project_name ++ "-" ++ host ++ ":latest")

/-- The tags of a descriptor that do not end in `":latest"`, in order. -/
def nonLatestTags (d : ImageDescriptor) : List String :=
  d.repoTags.filter (fun tag => !strEndsWith tag ":latest")

/-- Python tag split on the colon character, last element: the last colon-separated segment. -/
def lastColonSegment (tag : String) : String :=
  (strSplitOn tag ":").getLastD ""

/-- Embedding of `get_latest_image_for` (utils.py lines 89-103).  The input
`image_data` stands for the list the client returned.  The single-element
unpacking raises `ValueError` unless the filtered list has exactly one
element, and indexing `[0]` raises `IndexError` when no non-latest tag
exists; both exceptions are caught and mapped to `(none, none)`. -/
def get_latest_image_for (project_name host : String)
    (image_data : List ImageDescriptor) : Option String × Option String :=
  match image_data.filter (matchesLatest project_name host) with
  | [datum] =>
      match nonLatestTags datum with
      | [] => (none, none)
      | tag :: _ => (some datum.id, some (lastColonSegment tag))
  | _ => (none, none)

/-! ### load_engine (utils.py lines 105-115)

`importlib.import_module` is modelled as a function from a module name to
`Except String M`: an `ImportError` message on failure, the module on
success.  For `load_engine` the module is just its `Engine` class, itself
modelled as a constructor function capturing the three arguments. -/

/-- Python `os.path.basename` on a POSIX path string. -/
def os_path_basename (p : String) : String :=
  (strSplitOn p "/").getLastD ""

/-- Embedding of `load_engine` (utils.py lines 105-115): imports
`container.<engine_name>.engine` (an import failure propagates unchanged)
and instantiates its `Engine` class with `base_path`, the lower-cased final
segment of `base_path`, and the keyword arguments as one mapping. -/
def load_engine {E V : Type} (importMod : String → Except String (String → String → List (String × V) → E))
    (engine_name base_path : String) (kwargs : List (String × V)) : Except String E :=
  match importMod ("container." ++ engine_name ++ ".engine") with
  | Except.error e => Except.error e
  | Except.ok ctor =>
      Except.ok (ctor base_path (strToLower (os_path_basename base_path)) kwargs)

/-! ### load_shipit_engine (utils.py lines 118-137) -/

/-- A shipit engine module, reduced to what `load_shipit_engine` consults:
the result of the getattr lookup of ShipItEngine, either the class (a
constructor over the keyword arguments) or the attribute-error message. -/
structure ShipitModule (E V : Type) where
  shipItEngineAttr : Except String (List (String × V) → E)

/-- Embedding of `load_shipit_engine` (utils.py lines 118-137): an import
failure is re-raised as an `ImportError` naming the engine and keeping the
original message; a missing `ShipItEngine` attribute is re-raised with a
separately worded message; on success the class is instantiated with
exactly the keyword arguments. -/
def load_shipit_engine {E V : Type} (importMod : String → Except String (ShipitModule E V))
    (engine_class : String) (kwargs : List (String × V)) : Except String E :=
  match importMod ("container.shipit." ++ engine_class ++ ".engine") with
  | Except.error exc =>
      Except.error ("No shipit module for " ++ engine_class ++ " found - " ++ exc)
  | Except.ok m =>
      match m.shipItEngineAttr with
      | Except.error exc =>
          Except.error ("Error getting ShipItEngine for " ++ engine_class ++ " - " ++ exc)
      | Except.ok cls => Except.ok (cls kwargs)

/-! ### Filesystem model for create_role_from_templates (utils.py lines 140-189)

The filesystem is a list of (path, content) file entries plus a list of
existing directories.  `jinja_render_to_temp` becomes `writeFile` with the
rendered content supplied by an abstract `render` parameter standing for the
jinja engine applied to the fixed context of the call (utils.py lines
61-69 build the content from the template file and the `temp_dir`
argument, so `render` takes exactly those two). -/

/-- A filesystem: file entries (path and content) and directories. -/
structure FS where
  files : List (Path × String)
  dirs : List Path
deriving DecidableEq

/-- The empty filesystem. -/
def emptyFS : FS := ⟨[], []⟩

/-- Python `os.path.exists`: true when the path is a directory or a file. -/
def pathExists (fs : FS) (p : Path) : Bool :=
  fs.dirs.contains p || fs.files.any (fun kv => kv.1 == p)

/-- The content of the file at `p`, when a file entry for `p` exists. -/
def findContent (fs : FS) (p : Path) : Option String :=
  (fs.files.find? (fun kv => kv.1 == p)).map (fun kv => kv.2)

/-- Writing a file: the binary open and write call overwrites any previous
entry at the same path. -/
def writeFile (fs : FS) (p : Path) (content : String) : FS :=
  { files := (p, content) :: fs.files.filter (fun kv => kv.1 != p),
    dirs := fs.dirs }

/-- Effect of `create_path` on the filesystem model: the directory is
created when missing and the already-exists `OSError` is swallowed, so the
effect is an idempotent insertion (see `create_path` and `makedirs_fs`). -/
def mkdirIdem (fs : FS) (p : Path) : FS :=
  if fs.dirs.contains p then fs else { files := fs.files, dirs := p :: fs.dirs }

/-- Python `os.rename(src, dst)` on a file entry: removes the entry at
`src` and writes its content at `dst`, overwriting `dst` if present.  When
no file entry at `src` exists the model leaves the filesystem unchanged
(the code only calls this under an existence check). -/
def renameFile (fs : FS) (src dst : Path) : FS :=
  match findContent fs src with
  | none => fs
  | some c =>
      { files := (dst, c) :: ((fs.files.filter (fun kv => kv.1 != src)).filter
          (fun kv => kv.1 != dst)),
        dirs := fs.dirs }

/-- Embedding of `jinja_render_to_temp` (utils.py lines 61-69) as used by
the role scaffolder: one file write of the rendered content. -/
def jinja_render_to_temp (render : String → Path → String) (template_file : String)
    (temp_dir : Path) (dest_file : String) (fs : FS) : FS :=
  writeFile fs (temp_dir ++ [dest_file]) (render template_file temp_dir)

/-- Replacement of all non-overlapping occurrences of `pat` by `repl`,
scanning left to right, on character lists; `fuel` bounds the recursion
and is instantiated with the input length, enough because each step
consumes at least one character. -/
def replaceChars (pat repl : List Char) : Nat → List Char → List Char
  | _, [] => []
  | 0, l => l
  | fuel + 1, c :: rest =>
    if pat.isPrefixOf (c :: rest) ∧ pat ≠ [] then
      repl ++ replaceChars pat repl fuel ((c :: rest).drop pat.length)
    else
      c :: replaceChars pat repl fuel rest

/-- Model of Python `s.replace(pattern, repl)` for a nonempty pattern:
replaces every non-overlapping occurrence, scanning left to right. -/
def strReplace (s pattern repl : String) : String :=
  ⟨replaceChars pattern.data repl.data s.data.length s.data⟩

/-- The destination-filename rules of `create_role_from_templates`
(utils.py lines 171-175): drop every `".j2"` occurrence, prefix names
starting with `"travis"` with a dot, and collapse names starting with
`"defaults"` or `"meta"` to `"main.yml"`. -/
def template_target_name (template : String) : String :=
  let t0 := strReplace template ".j2" ""
  let t1 := if strStartsWith t0 "travis" then "." ++ t0 else t0
  if strStartsWith t1 "defaults" || strStartsWith t1 "meta" then "main.yml" else t1

/-- The body of the template loop (utils.py lines 170-181): render the
template into `target_dir` under its computed name unless the destination
already exists. -/
def renderTemplateIfAbsent (render : String → Path → String) (target_dir : Path)
    (template : String) (fs : FS) : FS :=
  let target_name := template_target_name template
  if pathExists fs (target_dir ++ [target_name]) then fs
  else jinja_render_to_temp render ("role/" ++ template) target_dir target_name fs

/-- The `role_paths` table of `create_role_from_templates` (utils.py lines
150-156), in source-literal order. -/
def role_paths : List (String × List String) :=
  [("base", ["README.j2", "travis.j2.yml"]),
   ("defaults", ["defaults.j2.yml"]),
   ("meta", ["meta.j2.yml"]),
   ("test", ["test.j2.yml", "travis.j2.yml"]),
   ("tasks", [])]

/-- One iteration of the outer loop (utils.py lines 166-181): pick the
target directory (`base` means the role root), create it when it is a
subdirectory, then render each template of the entry. -/
def processRolePathEntry (render : String → Path → String) (role_path : Path)
    (p : String) (templates : List String) (fs : FS) : FS :=
  let target_dir := if p == "base" then role_path else role_path ++ [p]
  let fs1 := if p == "base" then fs else mkdirIdem fs target_dir
  templates.foldl (fun acc t => renderTemplateIfAbsent render target_dir t acc) fs1

/-- Embedding of `create_role_from_templates` (utils.py lines 140-189).
`render` stands for the jinja engine under the fixed context built from
`role_name`, `project_name` and `description` (those three only flow into
the rendered content); `timestamp` stands for
`datetime.today().strftime(...)`.  After the template loop, an existing
`tasks/main.yml` is renamed to `tasks/main_<timestamp>.yml`. -/
def create_role_from_templates (render : String → Path → String) (role_path : Path)
    (timestamp : String) (fs : FS) : FS :=
  let fs0 := mkdirIdem fs role_path
  let fs1 := role_paths.foldl
    (fun acc pr => processRolePathEntry render role_path pr.1 pr.2 acc) fs0
  let tasks_file := role_path ++ ["tasks", "main.yml"]
  let new_tasks_file := role_path ++ ["tasks", "main_" ++ timestamp ++ ".yml"]
  if pathExists fs1 tasks_file then renameFile fs1 tasks_file new_tasks_file else fs1

/-- The template loop of `create_role_from_templates` unrolled over the
`role_paths` table in source order; used to structure proofs. -/
def renderSteps (render : String → Path → String) (rp : Path) (fs : FS) : FS :=
  let fs0 := mkdirIdem fs rp
  let fs1 := renderTemplateIfAbsent render rp "README.j2" fs0
  let fs2 := renderTemplateIfAbsent render rp "travis.j2.yml" fs1
  let fs3 := mkdirIdem fs2 (rp ++ ["defaults"])
  let fs4 := renderTemplateIfAbsent render (rp ++ ["defaults"]) "defaults.j2.yml" fs3
  let fs5 := mkdirIdem fs4 (rp ++ ["meta"])
  let fs6 := renderTemplateIfAbsent render (rp ++ ["meta"]) "meta.j2.yml" fs5
  let fs7 := mkdirIdem fs6 (rp ++ ["test"])
  let fs8 := renderTemplateIfAbsent render (rp ++ ["test"]) "test.j2.yml" fs7
  let fs9 := renderTemplateIfAbsent render (rp ++ ["test"]) "travis.j2.yml" fs8
  mkdirIdem fs9 (rp ++ ["tasks"])

/-- The file destinations rendered by `create_role_from_templates`,
relative to the role path. -/
def role_template_destinations : List Path :=
  [["README"], [".travis.yml"], ["defaults", "main.yml"], ["meta", "main.yml"],
   ["test", "test.yml"], ["test", ".travis.yml"]]

/-! ## Helper lemmas -/

lemma find?_filter_ne_none (l : List (Path × String)) (p : Path) :
    (l.filter (fun kv => kv.1 != p)).find? (fun kv => kv.1 == p) = none := by
  induction l with
  | nil => rfl
  | cons a l ih =>
    by_cases hch : a.1 = p
    · simp only [List.filter_cons]
      have h1 : (a.1 != p) = false := by simp [hch]
      rw [h1]
      simp only [Bool.false_eq_true, if_false]
      exact ih
    · have h1 : (a.1 != p) = true := by simp [hch]
      rw [List.filter_cons, h1, if_pos rfl, List.find?_cons]
      have h2 : (a.1 == p) = false := by simp [hch]
      rw [h2]
      simp only [Bool.false_eq_true, cond_false]
      exact ih

lemma find?_filter_ne_of_ne (l : List (Path × String)) (p q : Path) (h : q ≠ p) :
    (l.filter (fun kv => kv.1 != p)).find? (fun kv => kv.1 == q) =
      l.find? (fun kv => kv.1 == q) := by
  induction l with
  | nil => rfl
  | cons a l ih =>
    by_cases hch : a.1 = p
    · have h1 : (a.1 != p) = false := by simp [hch]
      have h2 : (a.1 == q) = false := by
        rw [hch]; exact beq_eq_false_iff_ne.mpr (Ne.symm h)
      rw [List.filter_cons, h1]
      simp only [Bool.false_eq_true, if_false]
      rw [ih, List.find?_cons, h2]
    · have h1 : (a.1 != p) = true := by simp [hch]
      rw [List.filter_cons, h1, if_pos rfl, List.find?_cons, List.find?_cons]
      cases hq : (a.1 == q) <;> simp [hq, ih]

lemma any_filter_ne_of_ne (l : List (Path × String)) (p q : Path) (h : q ≠ p) :
    (l.filter (fun kv => kv.1 != p)).any (fun kv => kv.1 == q) =
      l.any (fun kv => kv.1 == q) := by
  induction l with
  | nil => rfl
  | cons a l ih =>
    by_cases hch : a.1 = p
    · have h1 : (a.1 != p) = false := by simp [hch]
      have h2 : (a.1 == q) = false := by
        rw [hch]; exact beq_eq_false_iff_ne.mpr (Ne.symm h)
      rw [List.filter_cons, h1]
      simp only [Bool.false_eq_true, if_false]
      rw [ih, List.any_cons, h2]
      simp
    · have h1 : (a.1 != p) = true := by simp [hch]
      rw [List.filter_cons, h1, if_pos rfl, List.any_cons, List.any_cons, ih]

lemma findContent_writeFile_self (fs : FS) (p : Path) (c : String) :
    findContent (writeFile fs p c) p = some c := by
  simp [findContent, writeFile, List.find?_cons]

lemma findContent_writeFile_ne (fs : FS) (p q : Path) (c : String) (h : q ≠ p) :
    findContent (writeFile fs p c) q = findContent fs q := by
  have h2 : (p == q) = false := beq_eq_false_iff_ne.mpr (Ne.symm h)
  simp only [findContent, writeFile, List.find?_cons, h2]
  rw [find?_filter_ne_of_ne _ _ _ h]

lemma pathExists_writeFile_ne (fs : FS) (p q : Path) (c : String) (h : q ≠ p) :
    pathExists (writeFile fs p c) q = pathExists fs q := by
  have h2 : (p == q) = false := beq_eq_false_iff_ne.mpr (Ne.symm h)
  simp only [pathExists, writeFile, List.any_cons, h2]
  rw [any_filter_ne_of_ne _ _ _ h]
  simp

lemma findContent_mkdirIdem (fs : FS) (p q : Path) :
    findContent (mkdirIdem fs p) q = findContent fs q := by
  unfold mkdirIdem
  split <;> rfl

lemma pathExists_mkdirIdem_ne (fs : FS) (p q : Path) (h : q ≠ p) :
    pathExists (mkdirIdem fs p) q = pathExists fs q := by
  unfold mkdirIdem
  split
  · rfl
  · simp [pathExists, List.contains_cons, h]

lemma pathExists_of_findContent (fs : FS) (q : Path) (c : String)
    (h : findContent fs q = some c) : pathExists fs q = true := by
  unfold findContent at h
  obtain ⟨kv, hkv, _⟩ : ∃ kv, fs.files.find? (fun kv => kv.1 == q) = some kv ∧ kv.2 = c := by
    cases hf : fs.files.find? (fun kv => kv.1 == q) <;> simp_all
  have hmem := List.mem_of_find?_eq_some hkv
  have hpred := List.find?_some hkv
  unfold pathExists
  rw [List.any_eq_true.mpr ⟨kv, hmem, hpred⟩]
  simp

lemma findContent_renameFile_ne (fs : FS) (src dst q : Path)
    (h1 : q ≠ src) (h2 : q ≠ dst) :
    findContent (renameFile fs src dst) q = findContent fs q := by
  unfold renameFile
  cases hc : findContent fs src with
  | none => rfl
  | some c =>
    have hd : (dst == q) = false := beq_eq_false_iff_ne.mpr (Ne.symm h2)
    simp only [findContent, List.find?_cons, hd]
    rw [find?_filter_ne_of_ne _ _ _ h2, find?_filter_ne_of_ne _ _ _ h1]

lemma renameFile_spec (fs : FS) (src dst : Path) (c : String)
    (h : findContent fs src = some c) (hne : src ≠ dst) :
    findContent (renameFile fs src dst) src = none ∧
      findContent (renameFile fs src dst) dst = some c := by
  unfold renameFile
  rw [h]
  constructor
  · have hd : (dst == src) = false := beq_eq_false_iff_ne.mpr (Ne.symm hne)
    simp only [findContent, List.find?_cons, hd]
    rw [find?_filter_ne_of_ne _ _ _ hne, find?_filter_ne_none]
    simp
  · simp [findContent, List.find?_cons]

/-! ### Template-step lemmas -/

lemma ttn_readme : template_target_name "README.j2" = "README" := by decide

lemma ttn_travis : template_target_name "travis.j2.yml" = ".travis.yml" := by decide

lemma ttn_defaults : template_target_name "defaults.j2.yml" = "main.yml" := by decide

lemma ttn_meta : template_target_name "meta.j2.yml" = "main.yml" := by decide

lemma ttn_test : template_target_name "test.j2.yml" = "test.yml" := by decide

lemma render_pres_some (render : String → Path → String) (td : Path) (t : String)
    (fs : FS) (q : Path) (c : String) (h : findContent fs q = some c) :
    findContent (renderTemplateIfAbsent render td t fs) q = some c := by
  simp only [renderTemplateIfAbsent, jinja_render_to_temp]
  split
  · exact h
  · next hne =>
    by_cases hq : td ++ [template_target_name t] = q
    · rw [hq] at hne
      exact absurd (pathExists_of_findContent fs q c h) hne
    · rw [findContent_writeFile_ne _ _ _ _ (Ne.symm hq)]
      exact h

lemma findContent_render_ne (render : String → Path → String) (td : Path) (t : String)
    (fs : FS) (q : Path) (h : q ≠ td ++ [template_target_name t]) :
    findContent (renderTemplateIfAbsent render td t fs) q = findContent fs q := by
  simp only [renderTemplateIfAbsent, jinja_render_to_temp]
  split
  · rfl
  · exact findContent_writeFile_ne _ _ _ _ h

lemma pathExists_render_ne (render : String → Path → String) (td : Path) (t : String)
    (fs : FS) (q : Path) (h : q ≠ td ++ [template_target_name t]) :
    pathExists (renderTemplateIfAbsent render td t fs) q = pathExists fs q := by
  simp only [renderTemplateIfAbsent, jinja_render_to_temp]
  split
  · rfl
  · exact pathExists_writeFile_ne _ _ _ _ h

lemma render_writes (render : String → Path → String) (td : Path) (t : String)
    (fs : FS) (h : pathExists fs (td ++ [template_target_name t]) = false) :
    findContent (renderTemplateIfAbsent render td t fs) (td ++ [template_target_name t]) =
      some (render ("role/" ++ t) td) := by
  simp only [renderTemplateIfAbsent, jinja_render_to_temp]
  rw [if_neg (by rw [h]; exact Bool.false_ne_true)]
  exact findContent_writeFile_self _ _ _

/-! ### List path disequality facts -/

lemma append_ne_self (l xs : List String) (h : xs ≠ []) : l ++ xs ≠ l := by
  intro he
  have hlen := congrArg List.length he
  rw [List.length_append] at hlen
  exact h (List.length_eq_zero.mp (by omega))

lemma append_ne_append (l : List String) {xs ys : List String} (h : xs ≠ ys) :
    l ++ xs ≠ l ++ ys := fun he => h (List.append_cancel_left he)

/-! ### Path and name disequality helpers -/

lemma main_backup_ne (ts : String) : "main.yml" ≠ "main_" ++ ts ++ ".yml" := by
  intro he
  have hlen := congrArg String.length he
  rw [String.length_append, String.length_append] at hlen
  have l1 : "main.yml".length = 8 := by decide
  have l2 : "main_".length = 5 := by decide
  have l3 : ".yml".length = 4 := by decide
  omega

lemma list_beq_cons_cons (a b : String) (as bs : List String) :
    ((a :: as) == (b :: bs)) = (a == b && as == bs) := rfl

lemma append_beq_append (l xs ys : List String) : (l ++ xs == l ++ ys) = (xs == ys) := by
  cases hb : (xs == ys) with
  | true =>
    rw [eq_of_beq hb]
    simp
  | false =>
    exact beq_eq_false_iff_ne.mpr (append_ne_append l (ne_of_beq_false hb))

lemma append_cons_beq_self (l : List String) (x : String) (xs : List String) :
    (l ++ (x :: xs) == l) = false :=
  beq_eq_false_iff_ne.mpr (append_ne_self l (x :: xs) (List.cons_ne_nil x xs))

lemma self_beq_append_cons (l : List String) (x : String) (xs : List String) :
    (l == l ++ (x :: xs)) = false :=
  beq_eq_false_iff_ne.mpr (Ne.symm (append_ne_self l (x :: xs) (List.cons_ne_nil x xs)))

/-! ### renderSteps composite lemmas -/

lemma renderSteps_pres_some (render : String → Path → String) (rp : Path)
    (fs : FS) (q : Path) (c : String) (h : findContent fs q = some c) :
    findContent (renderSteps render rp fs) q = some c := by
  simp only [renderSteps]
  rw [findContent_mkdirIdem]
  apply render_pres_some
  apply render_pres_some
  rw [findContent_mkdirIdem]
  apply render_pres_some
  rw [findContent_mkdirIdem]
  apply render_pres_some
  rw [findContent_mkdirIdem]
  apply render_pres_some
  apply render_pres_some
  rw [findContent_mkdirIdem]
  exact h

lemma foldl_role_paths_eq (render : String → Path → String) (rp : Path) (fs : FS) :
    List.foldl (fun acc pr => processRolePathEntry render rp pr.1 pr.2 acc)
      (mkdirIdem fs rp) role_paths = renderSteps render rp fs := by
  simp [role_paths, processRolePathEntry, renderSteps]

lemma create_role_eq (render : String → Path → String) (rp : Path) (ts : String) (fs : FS) :
    create_role_from_templates render rp ts fs =
      (if pathExists (renderSteps render rp fs) (rp ++ ["tasks", "main.yml"]) then
        renameFile (renderSteps render rp fs) (rp ++ ["tasks", "main.yml"])
          (rp ++ ["tasks", "main_" ++ ts ++ ".yml"])
      else renderSteps render rp fs) := by
  simp only [create_role_from_templates]
  rw [foldl_role_paths_eq]

lemma renderSteps_untouched (render : String → Path → String) (rp : Path) (fs : FS) (q : Path)
    (hrp : q ≠ rp)
    (h1 : q ≠ rp ++ ["README"]) (h2 : q ≠ rp ++ [".travis.yml"])
    (h3 : q ≠ rp ++ ["defaults"]) (h4 : q ≠ rp ++ ["defaults", "main.yml"])
    (h5 : q ≠ rp ++ ["meta"]) (h6 : q ≠ rp ++ ["meta", "main.yml"])
    (h7 : q ≠ rp ++ ["test"]) (h8 : q ≠ rp ++ ["test", "test.yml"])
    (h9 : q ≠ rp ++ ["test", ".travis.yml"]) (h10 : q ≠ rp ++ ["tasks"]) :
    findContent (renderSteps render rp fs) q = findContent fs q ∧
      pathExists (renderSteps render rp fs) q = pathExists fs q := by
  have e1 : q ≠ rp ++ [template_target_name "README.j2"] := by rw [ttn_readme]; exact h1
  have e2 : q ≠ rp ++ [template_target_name "travis.j2.yml"] := by rw [ttn_travis]; exact h2
  have e4 : q ≠ (rp ++ ["defaults"]) ++ [template_target_name "defaults.j2.yml"] := by
    rw [ttn_defaults, List.append_assoc]; exact h4
  have e6 : q ≠ (rp ++ ["meta"]) ++ [template_target_name "meta.j2.yml"] := by
    rw [ttn_meta, List.append_assoc]; exact h6
  have e8 : q ≠ (rp ++ ["test"]) ++ [template_target_name "test.j2.yml"] := by
    rw [ttn_test, List.append_assoc]; exact h8
  have e9 : q ≠ (rp ++ ["test"]) ++ [template_target_name "travis.j2.yml"] := by
    rw [ttn_travis, List.append_assoc]; exact h9
  constructor
  · simp only [renderSteps]
    rw [findContent_mkdirIdem, findContent_render_ne _ _ _ _ _ e9,
      findContent_render_ne _ _ _ _ _ e8, findContent_mkdirIdem,
      findContent_render_ne _ _ _ _ _ e6, findContent_mkdirIdem,
      findContent_render_ne _ _ _ _ _ e4, findContent_mkdirIdem,
      findContent_render_ne _ _ _ _ _ e2, findContent_render_ne _ _ _ _ _ e1,
      findContent_mkdirIdem]
  · simp only [renderSteps]
    rw [pathExists_mkdirIdem_ne _ _ _ h10, pathExists_render_ne _ _ _ _ _ e9,
      pathExists_render_ne _ _ _ _ _ e8, pathExists_mkdirIdem_ne _ _ _ h7,
      pathExists_render_ne _ _ _ _ _ e6, pathExists_mkdirIdem_ne _ _ _ h5,
      pathExists_render_ne _ _ _ _ _ e4, pathExists_mkdirIdem_ne _ _ _ h3,
      pathExists_render_ne _ _ _ _ _ e2, pathExists_render_ne _ _ _ _ _ e1,
      pathExists_mkdirIdem_ne _ _ _ hrp]

lemma create_path_on_fst_ok (denied : Path → Bool) (dirs : List Path) (path : Path) :
    (create_path_on denied dirs path).1 = Except.ok () := by
  simp only [create_path_on, makedirs_fs]
  split
  · rfl
  · split <;> rfl

/-! ## Claim theorems -/

/-- C1: get_latest_image_for returns the sentinel pair (none, none) when zero
descriptors, or at least two descriptors, carry the project-host latest tag;
when exactly one descriptor matches it returns that descriptor Id paired with
the build stamp extracted from the first tag that does not end in the latest
suffix. -/
theorem get_latest_image_for_spec (project_name host : String)
    (image_data : List ImageDescriptor) :
    (image_data.filter (matchesLatest project_name host) = [] →
      get_latest_image_for project_name host image_data = (none, none)) ∧
    (2 ≤ (image_data.filter (matchesLatest project_name host)).length →
      get_latest_image_for project_name host image_data = (none, none)) ∧
    (∀ d tag rest, image_data.filter (matchesLatest project_name host) = [d] →
      nonLatestTags d = tag :: rest →
      get_latest_image_for project_name host image_data =
        (some d.id, some (lastColonSegment tag))) := by
  refine ⟨?_, ?_, ?_⟩
  · intro h
    unfold get_latest_image_for
    rw [h]
  · intro h
    cases hf : image_data.filter (matchesLatest project_name host) with
    | nil => rw [hf] at h; simp at h
    | cons a l =>
      cases l with
      | nil => rw [hf] at h; simp at h
      | cons b l2 =>
        unfold get_latest_image_for
        rw [hf]
  · intro d tag rest h1 h2
    unfold get_latest_image_for
    rw [h1]
    simp [h2]

/-- Witness for C1 at the example of the claim, plus the empty list case. -/
theorem get_latest_image_for_spec_witness :
    get_latest_image_for "proj" "host"
      [⟨["proj-host:latest", "proj-host:abc123"], "sha1"⟩] =
      (some "sha1", some "abc123") ∧
    get_latest_image_for "proj" "host" [] = (none, none) := by
  constructor
  · have h := (get_latest_image_for_spec "proj" "host"
      [⟨["proj-host:latest", "proj-host:abc123"], "sha1"⟩]).2.2
      ⟨["proj-host:latest", "proj-host:abc123"], "sha1"⟩ "proj-host:abc123" []
      (by decide) (by decide)
    rw [h]
    decide
  · exact (get_latest_image_for_spec "proj" "host" []).1 (by decide)

/-- C10: when exactly one descriptor matches the latest tag but none of its
tags lacks the latest ending, get_latest_image_for does not raise; it returns
the sentinel (none, none), the same result as the no match case. -/
theorem get_latest_image_for_no_buildstamp (project_name host : String)
    (image_data : List ImageDescriptor) (d : ImageDescriptor)
    (h1 : image_data.filter (matchesLatest project_name host) = [d])
    (h2 : nonLatestTags d = []) :
    get_latest_image_for project_name host image_data = (none, none) := by
  unfold get_latest_image_for
  rw [h1]
  simp [h2]

/-- Witness for C10: a single descriptor whose only tag is the latest one. -/
theorem get_latest_image_for_no_buildstamp_witness :
    get_latest_image_for "proj" "host" [⟨["proj-host:latest"], "sha1"⟩] = (none, none) :=
  get_latest_image_for_no_buildstamp "proj" "host" _ ⟨["proj-host:latest"], "sha1"⟩
    (by decide) (by decide)

/-- C2 counterexample: create_path silently succeeds when os.makedirs fails
with a permission OSError (errno 13), because the except OSError clause of the
code swallows every OSError; the claim requires an AnsibleContainerException
to be raised for this failure. -/
theorem create_path_swallows_permission_error :
    create_path "somedir" (MakedirsOutcome.osError 13 "Permission denied") =
      Except.ok () := rfl

/-- C2 amended: create_path swallows every OSError silently, including
permission and invalid path failures reported as OSError, not only the
already exists case; only a non OSError exception is wrapped into
AnsibleContainerException carrying the original error message. -/
theorem create_path_error_policy (path : String) (errno : Nat) (msg : String) :
    create_path path (MakedirsOutcome.osError errno msg) = Except.ok () ∧
    create_path path (MakedirsOutcome.otherError msg) =
      Except.error ("Error: failed to create " ++ path ++ " - " ++ msg) :=
  ⟨rfl, rfl⟩

/-- C9: calling create_path on an existing path succeeds silently, and in the
filesystem model where every failure of os.makedirs is an OSError, calling
create_path twice in a row on any path returns success both times. -/
theorem create_path_twice_ok (denied : Path → Bool) (dirs : List Path) (path : Path) :
    (create_path_on denied dirs path).1 = Except.ok () ∧
    (create_path_on denied (create_path_on denied dirs path).2 path).1 = Except.ok () :=
  ⟨create_path_on_fst_ok denied dirs path, create_path_on_fst_ok denied _ path⟩

/-- C6: load_engine imports the module named by the fixed pattern over the
engine name, propagates an import failure unchanged, and on success
instantiates the Engine class with exactly base_path, the lower cased final
path segment of base_path, and the keyword arguments as a single mapping. -/
theorem load_engine_spec {E V : Type}
    (importMod : String → Except String (String → String → List (String × V) → E))
    (engine_name base_path : String) (kwargs : List (String × V)) :
    (∀ e, importMod ("container." ++ engine_name ++ ".engine") = Except.error e →
      load_engine importMod engine_name base_path kwargs = Except.error e) ∧
    (∀ ctor, importMod ("container." ++ engine_name ++ ".engine") = Except.ok ctor →
      load_engine importMod engine_name base_path kwargs =
        Except.ok (ctor base_path (strToLower (os_path_basename base_path)) kwargs)) := by
  constructor <;> intro x h <;> simp [load_engine, h]

/-- Witness for C6 at the example of the claim, plus an import failure. -/
theorem load_engine_spec_witness :
    load_engine (fun _ => Except.ok (fun bp pn kw => (bp, pn, kw)))
      "kube" "/path/to/myproj" [("foo", (1 : Nat))] =
      Except.ok ("/path/to/myproj", "myproj", [("foo", (1 : Nat))]) ∧
    load_engine (fun n => (Except.error ("No module named " ++ n) :
        Except String (String → String → List (String × Nat) → String))) "nonexistent" "/b" [] =
      Except.error "No module named container.nonexistent.engine" := by
  constructor
  · have h := (load_engine_spec (fun _ => Except.ok (fun bp pn kw => (bp, pn, kw)))
      "kube" "/path/to/myproj" [("foo", (1 : Nat))]).2 (fun bp pn kw => (bp, pn, kw)) rfl
    rw [h]
    rfl
  · exact (load_engine_spec (fun n => (Except.error ("No module named " ++ n) :
        Except String (String → String → List (String × Nat) → String))) "nonexistent" "/b" []).1
      "No module named container.nonexistent.engine" rfl

/-- C5: load_shipit_engine wraps an import failure into an error whose message
names the engine class and keeps the original message, wraps a missing
ShipItEngine attribute into a separately worded error that also names the
engine class and keeps the original message, and on success instantiates the
resolved class with exactly the keyword arguments. -/
theorem load_shipit_engine_spec {E V : Type}
    (importMod : String → Except String (ShipitModule E V))
    (engine_class : String) (kwargs : List (String × V)) :
    (∀ exc, importMod ("container.shipit." ++ engine_class ++ ".engine") = Except.error exc →
      load_shipit_engine importMod engine_class kwargs =
        Except.error ("No shipit module for " ++ engine_class ++ " found - " ++ exc)) ∧
    (∀ m exc, importMod ("container.shipit." ++ engine_class ++ ".engine") = Except.ok m →
      m.shipItEngineAttr = Except.error exc →
      load_shipit_engine importMod engine_class kwargs =
        Except.error ("Error getting ShipItEngine for " ++ engine_class ++ " - " ++ exc)) ∧
    (∀ m cls, importMod ("container.shipit." ++ engine_class ++ ".engine") = Except.ok m →
      m.shipItEngineAttr = Except.ok cls →
      load_shipit_engine importMod engine_class kwargs = Except.ok (cls kwargs)) := by
  refine ⟨?_, ?_, ?_⟩
  · intro exc h
    simp [load_shipit_engine, h]
  · intro m exc h1 h2
    simp [load_shipit_engine, h1, h2]
  · intro m cls h1 h2
    simp [load_shipit_engine, h1, h2]

/-- Witness for C5: the nonexistent example of the claim, a malformed module,
and a successful instantiation. -/
theorem load_shipit_engine_spec_witness :
    load_shipit_engine (fun n => (Except.error ("No module named " ++ n) :
        Except String (ShipitModule String Nat))) "nonexistent" [] =
      Except.error
        "No shipit module for nonexistent found - No module named container.shipit.nonexistent.engine" ∧
    load_shipit_engine (fun _ => (Except.ok ⟨Except.error "module has no attribute ShipItEngine"⟩ :
        Except String (ShipitModule String Nat))) "kube" [] =
      Except.error "Error getting ShipItEngine for kube - module has no attribute ShipItEngine" ∧
    load_shipit_engine (fun _ => (Except.ok ⟨Except.ok (fun kw => toString kw.length)⟩ :
        Except String (ShipitModule String Nat))) "kube" [("key", 7)] =
      Except.ok "1" := by
  refine ⟨?_, ?_, ?_⟩
  · exact (load_shipit_engine_spec (fun n => (Except.error ("No module named " ++ n) :
      Except String (ShipitModule String Nat))) "nonexistent" []).1
      "No module named container.shipit.nonexistent.engine" rfl
  · exact (load_shipit_engine_spec (fun _ => (Except.ok ⟨Except.error "module has no attribute ShipItEngine"⟩ :
      Except String (ShipitModule String Nat))) "kube" []).2.1
      ⟨Except.error "module has no attribute ShipItEngine"⟩
      "module has no attribute ShipItEngine" rfl rfl
  · exact (load_shipit_engine_spec (fun _ => (Except.ok ⟨Except.ok (fun kw => toString kw.length)⟩ :
      Except String (ShipitModule String Nat))) "kube" [("key", 7)]).2.2
      ⟨Except.ok (fun kw => toString kw.length)⟩ (fun kw => toString kw.length) rfl rfl

/-- C7: assert_initialized raises the not initialized error exactly when the
ansible directory is missing or not a directory, or container.yml or main.yml
is missing or not a regular file; when all six checks pass it returns
normally. The embedding consults only read oracles, so by construction the
check performs no filesystem modification. -/
theorem assert_initialized_spec (fs : FSQuery) (base_path : Path) :
    (assert_initialized fs base_path = Except.error () ↔
      ¬(fs.pexists (base_path ++ ["ansible"]) = true ∧
        fs.isdir (base_path ++ ["ansible"]) = true ∧
        fs.pexists (base_path ++ ["ansible", "container.yml"]) = true ∧
        fs.isfile (base_path ++ ["ansible", "container.yml"]) = true ∧
        fs.pexists (base_path ++ ["ansible", "main.yml"]) = true ∧
        fs.isfile (base_path ++ ["ansible", "main.yml"]) = true)) ∧
    (assert_initialized fs base_path = Except.ok () ↔
      (fs.pexists (base_path ++ ["ansible"]) = true ∧
        fs.isdir (base_path ++ ["ansible"]) = true ∧
        fs.pexists (base_path ++ ["ansible", "container.yml"]) = true ∧
        fs.isfile (base_path ++ ["ansible", "container.yml"]) = true ∧
        fs.pexists (base_path ++ ["ansible", "main.yml"]) = true ∧
        fs.isfile (base_path ++ ["ansible", "main.yml"]) = true)) := by
  simp only [assert_initialized, List.append_assoc, List.singleton_append]
  split
  · next h =>
    simp at h
    constructor
    · constructor
      · intro _
        rintro ⟨a, b, c2, d2, e2, f2⟩
        simp_all
      · intro _
        rfl
    · constructor
      · intro he
        exact Except.noConfusion he
      · intro hc
        exfalso
        rcases hc with ⟨a, b, c2, d2, e2, f2⟩
        simp_all
  · next h =>
    simp at h
    constructor
    · constructor
      · intro he
        exact Except.noConfusion he
      · intro hn
        exact absurd (by tauto) hn
    · constructor
      · intro _
        tauto
      · intro _
        rfl


/-- Witness for C7: with all six oracles true the check returns normally. -/
theorem assert_initialized_spec_witness :
    assert_initialized ⟨fun _ => true, fun _ => true, fun _ => true⟩ [] = Except.ok () :=
  (assert_initialized_spec ⟨fun _ => true, fun _ => true, fun _ => true⟩ []).2.mpr
    ⟨rfl, rfl, rfl, rfl, rfl, rfl⟩

/-- C3: create_role_from_templates is idempotent per generated file: every
template destination under role_path that already holds a file before the
call holds the same content after the call, so a second run leaves README,
the CI config and the main.yml files unchanged. -/
theorem create_role_preserves_existing (render : String → Path → String) (rp : Path)
    (ts : String) (fs : FS) :
    ∀ d ∈ role_template_destinations, ∀ c, findContent fs (rp ++ d) = some c →
      findContent (create_role_from_templates render rp ts fs) (rp ++ d) = some c := by
  intro d hd c h
  simp only [role_template_destinations, List.mem_cons, List.not_mem_nil, or_false] at hd
  rw [create_role_eq]
  have hsteps := renderSteps_pres_some render rp fs (rp ++ d) c h
  have hsrc : rp ++ d ≠ rp ++ ["tasks", "main.yml"] := by
    apply append_ne_append
    rcases hd with rfl | rfl | rfl | rfl | rfl | rfl <;> simp
  have hdst : rp ++ d ≠ rp ++ ["tasks", "main_" ++ ts ++ ".yml"] := by
    apply append_ne_append
    rcases hd with rfl | rfl | rfl | rfl | rfl | rfl <;> simp
  split
  · rw [findContent_renameFile_ne _ _ _ _ hsrc hdst]
    exact hsteps
  · exact hsteps

/-- Witness for C3: an existing README survives a second scaffolding run. -/
theorem create_role_preserves_existing_witness :
    findContent (create_role_from_templates (fun _ _ => "new") ["r"] "240101000000"
      ⟨[(["r", "README"], "old")], []⟩) ["r", "README"] = some "old" :=
  create_role_preserves_existing (fun _ _ => "new") ["r"] "240101000000"
    ⟨[(["r", "README"], "old")], []⟩ ["README"] (by decide) "old" (by decide)

/-- C4: when a file tasks/main.yml exists under role_path, after the call the
file is gone from tasks/main.yml and its content is at the timestamped backup
name under tasks; when tasks/main.yml does not exist, the backup destination
is left untouched. -/
theorem create_role_tasks_backup (render : String → Path → String) (rp : Path)
    (ts : String) (fs : FS) :
    (∀ c, findContent fs (rp ++ ["tasks", "main.yml"]) = some c →
      findContent (create_role_from_templates render rp ts fs)
        (rp ++ ["tasks", "main.yml"]) = none ∧
      findContent (create_role_from_templates render rp ts fs)
        (rp ++ ["tasks", "main_" ++ ts ++ ".yml"]) = some c) ∧
    (pathExists fs (rp ++ ["tasks", "main.yml"]) = false →
      findContent (create_role_from_templates render rp ts fs)
        (rp ++ ["tasks", "main_" ++ ts ++ ".yml"]) =
        findContent fs (rp ++ ["tasks", "main_" ++ ts ++ ".yml"])) := by
  have hsrc := renderSteps_untouched render rp fs (rp ++ ["tasks", "main.yml"])
    (append_ne_self rp _ (by decide))
    (append_ne_append rp (by decide)) (append_ne_append rp (by decide))
    (append_ne_append rp (by decide)) (append_ne_append rp (by decide))
    (append_ne_append rp (by decide)) (append_ne_append rp (by decide))
    (append_ne_append rp (by decide)) (append_ne_append rp (by decide))
    (append_ne_append rp (by decide)) (append_ne_append rp (by decide))
  have hdst := renderSteps_untouched render rp fs (rp ++ ["tasks", "main_" ++ ts ++ ".yml"])
    (append_ne_self rp _ (by simp))
    (append_ne_append rp (by simp)) (append_ne_append rp (by simp))
    (append_ne_append rp (by simp)) (append_ne_append rp (by simp))
    (append_ne_append rp (by simp)) (append_ne_append rp (by simp))
    (append_ne_append rp (by simp)) (append_ne_append rp (by simp))
    (append_ne_append rp (by simp)) (append_ne_append rp (by simp))
  constructor
  · intro c h
    rw [create_role_eq]
    have hfc1 : findContent (renderSteps render rp fs) (rp ++ ["tasks", "main.yml"]) = some c := by
      rw [hsrc.1]; exact h
    have hex := pathExists_of_findContent _ _ _ hfc1
    rw [if_pos hex]
    have hsd : rp ++ ["tasks", "main.yml"] ≠ rp ++ ["tasks", "main_" ++ ts ++ ".yml"] := by
      apply append_ne_append
      intro he
      injection he with h1 h2
      injection h2 with h3 h4
      exact main_backup_ne ts h3
    exact renameFile_spec _ _ _ c hfc1 hsd
  · intro h
    rw [create_role_eq]
    rw [if_neg (by rw [hsrc.2, h]; exact Bool.false_ne_true)]
    rw [hdst.1]

/-- Witness for C4: a concrete tasks/main.yml is moved to the backup name. -/
theorem create_role_tasks_backup_witness :
    findContent (create_role_from_templates (fun _ _ => "X") ["r"] "240101000000"
      ⟨[(["r", "tasks", "main.yml"], "tasks-content")], []⟩) ["r", "tasks", "main.yml"] = none ∧
    findContent (create_role_from_templates (fun _ _ => "X") ["r"] "240101000000"
      ⟨[(["r", "tasks", "main.yml"], "tasks-content")], []⟩)
      ["r", "tasks", "main_240101000000.yml"] = some "tasks-content" := by
  have h := (create_role_tasks_backup (fun _ _ => "X") ["r"] "240101000000"
    ⟨[(["r", "tasks", "main.yml"], "tasks-content")], []⟩).1 "tasks-content" (by decide)
  exact h

/-- C8 counterexample: on a fresh role path the test template renders to
test/test.yml, not test/main.yml as the claim states: at a concrete run the
file test/main.yml is absent while test/test.yml holds the rendered
content. -/
theorem create_role_no_test_main :
    findContent (create_role_from_templates (fun t _ => t) ["role"] "240101000000" emptyFS)
      ["role", "test", "main.yml"] = none ∧
    findContent (create_role_from_templates (fun t _ => t) ["role"] "240101000000" emptyFS)
      ["role", "test", "test.yml"] = some "role/test.j2.yml" := by
  decide

/-- C8 amended: on a fresh role path create_role_from_templates produces
exactly README, .travis.yml, defaults/main.yml, meta/main.yml, test/test.yml
and test/.travis.yml with their rendered contents, creates exactly the role
root and the defaults, meta, test and tasks directories, and writes no file
under the tasks directory. -/
theorem create_role_fresh_layout (render : String → Path → String) (rp : Path) (ts : String) :
    findContent (create_role_from_templates render rp ts emptyFS) (rp ++ ["README"]) =
      some (render "role/README.j2" rp) ∧
    findContent (create_role_from_templates render rp ts emptyFS) (rp ++ [".travis.yml"]) =
      some (render "role/travis.j2.yml" rp) ∧
    findContent (create_role_from_templates render rp ts emptyFS) (rp ++ ["defaults", "main.yml"]) =
      some (render "role/defaults.j2.yml" (rp ++ ["defaults"])) ∧
    findContent (create_role_from_templates render rp ts emptyFS) (rp ++ ["meta", "main.yml"]) =
      some (render "role/meta.j2.yml" (rp ++ ["meta"])) ∧
    findContent (create_role_from_templates render rp ts emptyFS) (rp ++ ["test", "test.yml"]) =
      some (render "role/test.j2.yml" (rp ++ ["test"])) ∧
    findContent (create_role_from_templates render rp ts emptyFS) (rp ++ ["test", ".travis.yml"]) =
      some (render "role/travis.j2.yml" (rp ++ ["test"])) ∧
    (create_role_from_templates render rp ts emptyFS).dirs =
      [rp ++ ["tasks"], rp ++ ["test"], rp ++ ["meta"], rp ++ ["defaults"], rp] ∧
    (∀ x, findContent (create_role_from_templates render rp ts emptyFS)
      (rp ++ ["tasks", x]) = none) := by
  rw [create_role_eq]
  simp [renderSteps, mkdirIdem, renderTemplateIfAbsent, jinja_render_to_temp, writeFile,
    pathExists, findContent, emptyFS, ttn_readme, ttn_travis, ttn_defaults, ttn_meta, ttn_test,
    append_beq_append, append_cons_beq_self, self_beq_append_cons, list_beq_cons_cons,
    List.contains_cons, List.filter_cons, List.find?_cons, List.any_cons]

end AnsibleContainer
